import Mathlib

/-!
Verification of the FloorForge frontend floor-plan coordinator.

This file embeds, in Lean, the logic of

  * `useFloorPlan` (load / generate / save / delete, the localStorage
    mirror effect and the hook's observable state), and
  * `extractRoomInfo` from the utility helpers,

and proves (or refutes) the behavioural claims made about them.

Modelling conventions:

  * JavaScript strings are Lean `String` / `List Char`; the regexes of
    `extractRoomInfo` carry the `i` flag, which is modelled by matching the
    lower-cased prompt against the (already lower-case) room-type words.
  * JS `\d`, `\w`, `\s` are the ASCII classes (digits; letters, digits and
    underscore; whitespace).
  * JS numbers appearing only as opaque payload (guidance scale, generation
    time) are modelled as `Rat`.
  * Effects (the HTTP client, `localStorage`, `Date.now()`, `Math.random()`,
    `process.env.NODE_ENV`) are passed in explicitly as parameters; an
    escaping exception is recorded in a `raised` flag.
  * `x || d` on a JS value that can be `0`, `""` or absent is modelled by
    the `jsOr*` helpers (falsy means absent, zero or empty).
-/

namespace FloorForge

/-! ### Character classes of the JavaScript regexes (ASCII fragment) -/

/-- JS `\d`: the ASCII digits. -/
def isDigitChar (c : Char) : Bool := c.isDigit

/-- JS `\s` restricted to ASCII: space, tab, newline, vertical tab, form
feed, carriage return. -/
def isSpaceChar (c : Char) : Bool :=
  c = ' ' || c = '\t' || c = '\n' || c = '\r' || c.toNat = 11 || c.toNat = 12

/-- JS `\w`: ASCII letters, digits and underscore. -/
def isWordChar (c : Char) : Bool := c.isAlphanum || c = '_'

/-- Lower-cased character list of a string (models the `i` regex flag and
`toLowerCase`). -/
def lcChars (s : String) : List Char := s.data.map Char.toLower

/-- `String.prototype.trim()`: strip whitespace from both ends. -/
def jsTrim (s : String) : List Char :=
  ((s.data.dropWhile isSpaceChar).reverse.dropWhile isSpaceChar).reverse

/-- `parseInt` on a non-empty ASCII digit string. -/
def digitsToNat (ds : List Char) : Nat :=
  ds.foldl (fun a c => a * 10 + (c.toNat - 48)) 0

/-! ### `extractRoomInfo` (utility helpers)

The JS source, per room type `type`, tries the patterns
`(\d+)\s+types?` and `(one|two|three|four|five)\s+types?` (flag `i`) in
this order; the first one that matches sets `result[type]` from the
capture.  Afterwards, `if (!result[type] && \btype\b matches)` it sets
`result[type] = 1`.  An empty prompt yields the empty object. -/

/-- Attempt `(\d+)\s+types?` at the start of `l`; returns the digits
captured by group 1.  Backtracking inside `\d+`/`\s+` can never succeed
after the greedy attempt fails (a digit cannot satisfy `\s`, whitespace
cannot start the type word), so the greedy reading is exact.  The trailing
`s?` is optional and nothing follows it, so it cannot cause failure. -/
def matchNumAt (ty l : List Char) : Option (List Char) :=
  let ds := l.takeWhile isDigitChar
  let r1 := l.dropWhile isDigitChar
  if ds.isEmpty then none
  else
    let r2 := r1.dropWhile isSpaceChar
    if (r1.takeWhile isSpaceChar).isEmpty then none
    else if ty.isPrefixOf r2 then some ds else none

/-- Leftmost match of `(\d+)\s+types?` in the prompt (JS `String.match`
scans start positions left to right). -/
def findNumCapture (ty : List Char) : List Char → Option (List Char)
  | [] => none
  | c :: rest =>
    match matchNumAt ty (c :: rest) with
    | some ds => some ds
    | none => findNumCapture ty rest

/-- The `textToNumber` table of the source, fused with the alternation
`(one|two|three|four|five)`.  The JS fallback `|| 1` for an unrecognised
word is dead code: the capture is always one of these five words. -/
def numberWords : List (List Char × Nat) :=
  [("one".data, 1), ("two".data, 2), ("three".data, 3),
   ("four".data, 4), ("five".data, 5)]

/-- Attempt `(one|two|three|four|five)\s+types?` at the start of `l`,
trying the alternatives in order (no two of the five words can match at
the same position, so this agrees with the regex engine). -/
def matchWordAlt (ty l : List Char) : List (List Char × Nat) → Option Nat
  | [] => none
  | (w, n) :: alts =>
    if w.isPrefixOf l then
      let r1 := l.drop w.length
      if !(r1.takeWhile isSpaceChar).isEmpty && ty.isPrefixOf (r1.dropWhile isSpaceChar) then
        some n
      else matchWordAlt ty l alts
    else matchWordAlt ty l alts

/-- Leftmost match of the number-word rule in the prompt. -/
def findWordCapture (ty : List Char) : List Char → Option Nat
  | [] => none
  | c :: rest =>
    match matchWordAlt ty (c :: rest) numberWords with
    | some n => some n
    | none => findWordCapture ty rest

/-- Word-character test on an optional character (absent counts as
non-word, as at the ends of the string). -/
def optIsWord : Option Char → Bool
  | none => false
  | some c => isWordChar c

/-- Scan for `\bty\b` with `prev` the character before the current
position.  A `\b` holds where exactly one side is a word character. -/
def bareWordScan (ty : List Char) (tyLast : Char) (prev : Option Char) :
    List Char → Bool
  | [] => false
  | c :: rest =>
    ((optIsWord prev != isWordChar c) && ty.isPrefixOf (c :: rest) &&
      (isWordChar tyLast != optIsWord ((c :: rest).drop ty.length).head?))
    || bareWordScan ty tyLast (some c) rest

/-- `new RegExp("\\b" + ty + "\\b", "i").test prompt`. -/
def bareWordTest (ty prompt : List Char) : Bool :=
  match ty.getLast? with
  | none => false
  | some tl => bareWordScan ty tl none prompt

/-- JS truthiness of `result[type]`: falsy when the key is absent or the
stored count is `0`. -/
def jsFalsy : Option Nat → Bool
  | none => true
  | some 0 => true
  | some (_ + 1) => false

/-- The per-type body of the `forEach` in `extractRoomInfo`: first
matching numeric rule wins, then the bare-mention default of 1 applies
when `!result[type]` and the whole word occurs. -/
def roomCount (prompt ty : List Char) : Option Nat :=
  let numeric : Option Nat :=
    match findNumCapture ty prompt with
    | some ds => some (digitsToNat ds)
    | none => findWordCapture ty prompt
  if jsFalsy numeric && bareWordTest ty prompt then some 1 else numeric

/-- The `roomTypes` array of the source, in order. -/
def roomTypes : List String :=
  ["bedroom", "bathroom", "kitchen", "living room", "dining room",
   "office", "studio", "balcony", "patio", "garage"]

/-- `extractRoomInfo`, as the association list of room-type / count pairs
it builds (key order is the `roomTypes` order).  `if (!prompt) return {}`:
the empty string is falsy. -/
def extractRoomInfo (prompt : String) : List (String × Nat) :=
  if prompt = "" then []
  else
    roomTypes.filterMap fun ty =>
      (roomCount (lcChars prompt) (lcChars ty)).map fun n => (ty, n)

/-- Substring containment (used to state claims about prompts
"containing" a phrase). -/
def containsSub (needle : List Char) : List Char → Bool
  | [] => needle.isEmpty
  | c :: rest => needle.isPrefixOf (c :: rest) || containsSub needle rest

/-! ### The floor-plan data model of `useFloorPlan` -/

/-- The `parameters` object of a floor plan. -/
structure Params where
  numInferenceSteps : Nat
  guidanceScale : Rat
  seed : Nat
deriving DecidableEq

/-- A floor plan as built by the hook. -/
structure FloorPlan where
  id : String
  prompt : String
  imageUrl : String
  createdAt : String
  parameters : Params
  generationTime : Rat
deriving DecidableEq

/-- The hook's observable state (`useState` cells). -/
structure HookState where
  floorPlans : List FloorPlan
  currentPlan : Option FloorPlan
  isLoading : Bool
  isGenerating : Bool
  error : Option String
deriving DecidableEq

/-- The initial `useState` values. -/
def initialState : HookState :=
  { floorPlans := [], currentPlan := none, isLoading := false,
    isGenerating := false, error := none }

/-- Content of `localStorage` under the key `"floorPlans"`: absent,
present but undecodable by `JSON.parse`, or a decodable serialization of
a plan list. -/
inductive StoreContent where
  | missing : StoreContent
  | malformed : StoreContent
  | plans (ps : List FloorPlan) : StoreContent
deriving DecidableEq

/-- The mirror effect `useEffect(..., [floorPlans])`: writes the current
collection to the store, but only when it is non-empty. -/
def mirrorEffect (floorPlans : List FloorPlan) (store : StoreContent) : StoreContent :=
  if floorPlans.length > 0 then .plans floorPlans else store

/-- Outcome of an HTTP request made through the api service: resolved
with a payload, or rejected (transport or server error). -/
inductive ApiResult (α : Type) where
  | ok (a : α) : ApiResult α
  | fail : ApiResult α
deriving DecidableEq

/-- Payload of `getFloorPlans` as the hook inspects it:
`data && data.floorPlans && Array.isArray(data.floorPlans)` holds exactly
when `data.floorPlans` is an array — an empty array is truthy in JS, so
`wellFormed []` passes the check; every other shape is `malformed`. -/
inductive LoadData where
  | wellFormed (ps : List FloorPlan) : LoadData
  | malformed : LoadData
deriving DecidableEq

/-- Result of running the initial `loadFloorPlans` effect: the final
state and whether an exception escaped (the returned promise rejected). -/
structure LoadResult where
  state : HookState
  raised : Bool
deriving DecidableEq

/-- The `loadFloorPlans` body inside the mount effect.  On the fallback
paths it calls `JSON.parse` on the stored string; when the content is
undecodable the first parse error is caught, but the `catch` block parses
the very same string again (line 41 of the hook) and that second
`SyntaxError` escapes; the `finally` still clears `isLoading`, and
`setError` on line 44 is never reached. -/
def loadFloorPlans (api : ApiResult LoadData) (store : StoreContent)
    (s : HookState) : LoadResult :=
  let s0 : HookState := { s with isLoading := true, error := none }
  match api with
  | .ok (.wellFormed ps) =>
    { state := { s0 with floorPlans := ps, isLoading := false }, raised := false }
  | .ok .malformed =>
    match store with
    | .missing => { state := { s0 with isLoading := false }, raised := false }
    | .plans ps =>
      { state := { s0 with floorPlans := ps, isLoading := false }, raised := false }
    | .malformed => { state := { s0 with isLoading := false }, raised := true }
  | .fail =>
    match store with
    | .missing =>
      { state := { s0 with
          error := some "Failed to load floor plans from server. Using locally saved plans instead.",
          isLoading := false }, raised := false }
    | .plans ps =>
      { state := { s0 with
          floorPlans := ps,
          error := some "Failed to load floor plans from server. Using locally saved plans instead.",
          isLoading := false }, raised := false }
    | .malformed => { state := { s0 with isLoading := false }, raised := true }

/-- The `options` argument of `generateFloorPlan` (fields may be absent). -/
structure GenOptions where
  numInferenceSteps : Option Nat
  guidanceScale : Option Rat
  seed : Option Nat
deriving DecidableEq

/-- Response payload of a successful `apiService.generateFloorPlan`. -/
structure GenResponse where
  id : String
  prompt : String
  imageUrl : String
  createdAt : Option String
  parameters : Option Params
  generationTime : Option Rat
deriving DecidableEq

/-- `v || d` for a possibly-absent JS number (`0` is falsy). -/
def jsOrNat (v : Option Nat) (d : Nat) : Nat :=
  match v with
  | some n => if n = 0 then d else n
  | none => d

/-- `v || d` for a possibly-absent JS number (`0` is falsy). -/
def jsOrRat (v : Option Rat) (d : Rat) : Rat :=
  match v with
  | some q => if q = 0 then d else q
  | none => d

/-- `v || d` for a possibly-absent JS string (`""` is falsy). -/
def jsOrStr (v : Option String) (d : String) : String :=
  match v with
  | some t => if t = "" then d else t
  | none => d

/-- Result of one `generateFloorPlan(prompt, options)` call: final state,
the value the promise resolves to, and whether the remote generation
client was invoked. -/
structure GenResult where
  state : HookState
  ret : Option FloorPlan
  apiCalled : Bool
deriving DecidableEq

/-- `generateFloorPlan`.  Environment parameters: `api` is the outcome of
`apiService.generateFloorPlan`, `devMode` is
`process.env.NODE_ENV === "development"`, `now` is
`new Date().toISOString()`, `nowMs` is `Date.now().toString()` and `rnd`
is `Math.floor(Math.random() * 1000000)`. -/
def generateFloorPlan (prompt : String) (options : GenOptions)
    (api : ApiResult GenResponse) (devMode : Bool) (now nowMs : String)
    (rnd : Nat) (s : HookState) : GenResult :=
  if jsTrim prompt = [] then
    { state := { s with error := some "Please enter a description for your floor plan" },
      ret := none, apiCalled := false }
  else
    let s1 : HookState := { s with isGenerating := true, error := none }
    match api with
    | .ok data =>
      let newFloorPlan : FloorPlan :=
        { id := data.id
          prompt := data.prompt
          imageUrl := data.imageUrl
          createdAt := jsOrStr data.createdAt now
          parameters :=
            match data.parameters with
            | some ps => ps
            | none =>
              { numInferenceSteps := jsOrNat options.numInferenceSteps 50
                guidanceScale := jsOrRat options.guidanceScale (15 / 2)
                seed := jsOrNat options.seed rnd }
          generationTime := jsOrRat data.generationTime 0 }
      { state := { s1 with
          currentPlan := some newFloorPlan,
          floorPlans := newFloorPlan :: s1.floorPlans,
          isGenerating := false },
        ret := some newFloorPlan, apiCalled := true }
    | .fail =>
      let s2 : HookState :=
        { s1 with error := some "Failed to generate floor plan. Please try again." }
      if devMode then
        let demoFloorPlan : FloorPlan :=
          { id := nowMs
            prompt := prompt
            imageUrl := "https://placehold.co/600x600/e2e8f0/1e293b?text=Floor+Plan"
            createdAt := now
            parameters :=
              { numInferenceSteps := jsOrNat options.numInferenceSteps 50
                guidanceScale := jsOrRat options.guidanceScale (15 / 2)
                seed := jsOrNat options.seed rnd }
            generationTime := 3 / 2 }
        { state := { s2 with
            currentPlan := some demoFloorPlan,
            floorPlans := demoFloorPlan :: s2.floorPlans,
            isGenerating := false },
          ret := some demoFloorPlan, apiCalled := true }
      else
        { state := { s2 with isGenerating := false }, ret := none, apiCalled := true }

/-- `currentPlan?.id === x`: `undefined === x` is false when no plan is
current. -/
def currentIdIs (cp : Option FloorPlan) (x : String) : Bool :=
  match cp with
  | some c => c.id = x
  | none => false

/-- `saveFloorPlan(plan)`: replace the entries with the same id, update
`currentPlan` when it has that id, resolve with the plan. -/
def saveFloorPlan (plan : FloorPlan) (s : HookState) : HookState × Option FloorPlan :=
  let s0 : HookState := { s with isLoading := true, error := none }
  let s1 : HookState :=
    { s0 with floorPlans := s0.floorPlans.map fun p => if p.id = plan.id then plan else p }
  let s2 : HookState :=
    if currentIdIs s1.currentPlan plan.id then { s1 with currentPlan := some plan } else s1
  ({ s2 with isLoading := false }, some plan)

/-- `deleteFloorPlan(id)`: filter out the entries with that id, clear
`currentPlan` when it has that id, and resolve with `true` (the `return
false` of the source sits in a `catch` none of these statements can
reach). -/
def deleteFloorPlan (x : String) (s : HookState) : HookState × Bool :=
  let s0 : HookState := { s with isLoading := true, error := none }
  let s1 : HookState :=
    { s0 with floorPlans := s0.floorPlans.filter fun p => p.id != x }
  let s2 : HookState :=
    if currentIdIs s1.currentPlan x then { s1 with currentPlan := none } else s1
  ({ s2 with isLoading := false }, true)

/-! ### Sample data for concrete evaluations -/

/-- A concrete parameter block. -/
def sampleParams : Params :=
  { numInferenceSteps := 50, guidanceScale := 15 / 2, seed := 1 }

/-- A concrete stored plan. -/
def samplePlan : FloorPlan :=
  { id := "plan-1", prompt := "a house", imageUrl := "u1", createdAt := "t1",
    parameters := sampleParams, generationTime := 0 }

/-- A second concrete plan with a different id. -/
def samplePlan2 : FloorPlan :=
  { id := "plan-2", prompt := "a flat", imageUrl := "u2", createdAt := "t2",
    parameters := sampleParams, generationTime := 0 }

/-- A concrete successful generation response. -/
def sampleResponse : GenResponse :=
  { id := "plan-9", prompt := "a house", imageUrl := "u9", createdAt := none,
    parameters := none, generationTime := none }

/-- Options with every field absent. -/
def sampleOptions : GenOptions :=
  { numInferenceSteps := none, guidanceScale := none, seed := none }

/-! ### Helper lemmas -/

/-- Looking up a key that is not among the generating keys of the
association list built by `extractRoomInfo` yields nothing. -/
theorem lookup_keyed_not_mem (g : String → Option Nat) :
    ∀ (l : List String) (ty : String), ty ∉ l →
      (l.filterMap fun t => (g t).map fun n => (t, n)).lookup ty = none := by
  intro l
  induction l with
  | nil => intro ty _; rfl
  | cons t ts ih =>
    intro ty h
    have hne : ty ≠ t := fun he => h (he ▸ List.mem_cons_self t ts)
    have hts : ty ∉ ts := fun hm => h (List.mem_cons_of_mem t hm)
    cases hg : g t with
    | none => simpa [List.filterMap_cons, hg] using ih ty hts
    | some n =>
      simpa [List.filterMap_cons, hg, List.lookup, beq_eq_false_iff_ne.mpr hne]
        using ih ty hts

/-- Looking up a room type in the association list built by
`extractRoomInfo` recovers the per-type count, provided the key list has
no duplicates. -/
theorem lookup_keyed_mem (g : String → Option Nat) :
    ∀ (l : List String), l.Nodup → ∀ ty ∈ l,
      (l.filterMap fun t => (g t).map fun n => (t, n)).lookup ty = g ty := by
  intro l
  induction l with
  | nil => intro _ ty h; exact absurd h (List.not_mem_nil ty)
  | cons t ts ih =>
    intro hnd ty hmem
    have hnd1 : t ∉ ts := (List.nodup_cons.mp hnd).1
    have hnd2 : ts.Nodup := (List.nodup_cons.mp hnd).2
    rcases List.mem_cons.mp hmem with he | hts
    · subst he
      cases hg : g ty with
      | none =>
        simpa [List.filterMap_cons, hg] using lookup_keyed_not_mem g ts ty hnd1
      | some n => simp [List.filterMap_cons, hg, List.lookup]
    · have hne : ty ≠ t := fun he => hnd1 (he ▸ hts)
      cases hg : g t with
      | none => simpa [List.filterMap_cons, hg] using ih hnd2 ty hts
      | some n =>
        simpa [List.filterMap_cons, hg, List.lookup, beq_eq_false_iff_ne.mpr hne]
          using ih hnd2 ty hts

/-- Bridge: for a non-empty prompt and a listed room type, the count in
the mapping returned by `extractRoomInfo` is the per-type `roomCount`. -/
theorem lookup_extractRoomInfo (prompt ty : String) (hp : prompt ≠ "")
    (hty : ty ∈ roomTypes) :
    (extractRoomInfo prompt).lookup ty = roomCount (lcChars prompt) (lcChars ty) := by
  unfold extractRoomInfo
  rw [if_neg hp]
  exact lookup_keyed_mem (fun t => roomCount (lcChars prompt) (lcChars t))
    roomTypes (by decide) ty hty

/-- Every entry of the word→integer table is at least 1. -/
theorem matchWordAlt_ge_one :
    ∀ (alts : List (List Char × Nat)), (∀ e ∈ alts, 1 ≤ e.2) →
      ∀ {ty l : List Char} {n : Nat}, matchWordAlt ty l alts = some n → 1 ≤ n := by
  intro alts
  induction alts with
  | nil => intro _ ty l n h; simp [matchWordAlt] at h
  | cons e es ih =>
    intro hall ty l n h
    obtain ⟨w, m⟩ := e
    have hes : ∀ e ∈ es, 1 ≤ e.2 := fun e he => hall e (List.mem_cons_of_mem _ he)
    simp only [matchWordAlt] at h
    split at h
    · split at h
      · exact (Option.some.inj h) ▸ hall (w, m) (List.mem_cons_self _ _)
      · exact ih hes h
    · exact ih hes h

/-- The number-word rule never produces a zero count. -/
theorem findWordCapture_ge_one :
    ∀ (l : List Char) {ty : List Char} {n : Nat},
      findWordCapture ty l = some n → 1 ≤ n := by
  intro l
  induction l with
  | nil => intro ty n h; simp [findWordCapture] at h
  | cons c rest ih =>
    intro ty n h
    simp only [findWordCapture] at h
    cases hm : matchWordAlt ty (c :: rest) numberWords with
    | some m =>
      rw [hm] at h
      cases h
      exact matchWordAlt_ge_one numberWords (by decide) hm
    | none =>
      rw [hm] at h
      exact ih h

/-! ### Claims C7 and C8: `extractRoomInfo` -/

/-- C7 counterexample: the claim says the bare-word default of 1 applies
only when neither numeric rule matched, so a digit-rule match with 0
should yield count 0.  On the prompt "0 bedroom" the digit rule matches
with capture "0", yet the result maps "bedroom" to 1: a stored 0 is falsy
in JS, so `!result[type]` lets the whole-word default overwrite it. -/
theorem c7_counterexample :
    findNumCapture (lcChars "bedroom") (lcChars "0 bedroom") = some ['0'] ∧
    digitsToNat ['0'] = 0 ∧
    (extractRoomInfo "0 bedroom").lookup "bedroom" = some 1 := by
  decide

/-- C7 (amended): the two numeric rules are tried in order and the first
match determines the count, and the bare-word default of 1 applies when
no numeric rule matched; however, a digit-rule capture of 0 is falsy, so
it survives only when the whole-word test also fails (e.g. "0 bedrooms"),
and is overwritten by 1 when the bare word occurs (e.g. "0 bedroom"). -/
theorem c7_room_rule_order (prompt ty : String) (hp : prompt ≠ "")
    (hty : ty ∈ roomTypes) :
    (∀ ds, findNumCapture (lcChars ty) (lcChars prompt) = some ds →
      digitsToNat ds ≠ 0 →
      (extractRoomInfo prompt).lookup ty = some (digitsToNat ds)) ∧
    (findNumCapture (lcChars ty) (lcChars prompt) = none →
      ∀ n, findWordCapture (lcChars ty) (lcChars prompt) = some n →
      (extractRoomInfo prompt).lookup ty = some n) ∧
    (findNumCapture (lcChars ty) (lcChars prompt) = none →
      findWordCapture (lcChars ty) (lcChars prompt) = none →
      (extractRoomInfo prompt).lookup ty =
        (if bareWordTest (lcChars ty) (lcChars prompt) then some 1 else none)) ∧
    (∀ ds, findNumCapture (lcChars ty) (lcChars prompt) = some ds →
      digitsToNat ds = 0 → bareWordTest (lcChars ty) (lcChars prompt) = true →
      (extractRoomInfo prompt).lookup ty = some 1) ∧
    (∀ ds, findNumCapture (lcChars ty) (lcChars prompt) = some ds →
      digitsToNat ds = 0 → bareWordTest (lcChars ty) (lcChars prompt) = false →
      (extractRoomInfo prompt).lookup ty = some (digitsToNat ds)) := by
  rw [lookup_extractRoomInfo prompt ty hp hty]
  refine ⟨?_, ?_, ?_, ?_, ?_⟩
  · intro ds h1 h2
    cases hd : digitsToNat ds with
    | zero => exact absurd hd h2
    | succ k => simp [roomCount, h1, hd, jsFalsy]
  · intro h1 n h2
    cases n with
    | zero => exact absurd (findWordCapture_ge_one _ h2) (by simp)
    | succ k => simp [roomCount, h1, h2, jsFalsy]
  · intro h1 h2
    simp [roomCount, h1, h2, jsFalsy]
  · intro ds h1 h2 h3
    simp [roomCount, h1, h2, h3, jsFalsy]
  · intro ds h1 h2 h3
    simp [roomCount, h1, h2, h3, jsFalsy]

/-- C7 witness: on "3 bedrooms" the digit rule matches with capture "3"
and the mapping indeed sends "bedroom" to that count. -/
theorem c7_witness :
    ("3 bedrooms" ≠ "" ∧ "bedroom" ∈ roomTypes ∧
      findNumCapture (lcChars "bedroom") (lcChars "3 bedrooms") = some ['3'] ∧
      digitsToNat ['3'] ≠ 0) ∧
    (extractRoomInfo "3 bedrooms").lookup "bedroom" = some (digitsToNat ['3']) :=
  ⟨⟨by decide, by decide, by decide, by decide⟩,
    (c7_room_rule_order "3 bedrooms" "bedroom" (by decide) (by decide)).1
      ['3'] (by decide) (by decide)⟩

/-- C8 counterexample: the claim quantifies over all prompts containing
"3 bedrooms" (resp. "two bathrooms").  "13 bedrooms" contains
"3 bedrooms" yet maps "bedroom" to 13 (the regex captures the full digit
run); "3 bathrooms and two bathrooms" contains "two bathrooms" yet maps
"bathroom" to 3 (the digit rule is tried first). -/
theorem c8_counterexample :
    containsSub "3 bedrooms".data "13 bedrooms".data = true ∧
    (extractRoomInfo "13 bedrooms").lookup "bedroom" = some 13 ∧
    containsSub "two bathrooms".data "3 bathrooms and two bathrooms".data = true ∧
    (extractRoomInfo "3 bathrooms and two bathrooms").lookup "bathroom" = some 3 := by
  decide

/-- C8 (amended): on the prompt "3 bedrooms" itself the mapping sends
"bedroom" to 3; on "two bathrooms", "bathroom" to 2; on "garage" alone,
"garage" to 1; and the empty prompt yields the empty mapping. -/
theorem c8_concrete_prompts :
    (extractRoomInfo "3 bedrooms").lookup "bedroom" = some 3 ∧
    (extractRoomInfo "two bathrooms").lookup "bathroom" = some 2 ∧
    (extractRoomInfo "garage").lookup "garage" = some 1 ∧
    extractRoomInfo "" = [] := by
  decide

/-! ### Claims about the coordinator (`useFloorPlan`) -/

/-- A non-empty collection is written through to the store verbatim. -/
theorem mirrorEffect_of_ne_nil {l : List FloorPlan} (store : StoreContent)
    (h : l ≠ []) : mirrorEffect l store = .plans l := by
  simp [mirrorEffect, List.length_pos.mpr h]

/-- The mirror effect skips the write when the collection is empty. -/
theorem mirrorEffect_nil (store : StoreContent) : mirrorEffect [] store = store := rfl

/-- C1: for a prompt that is non-empty after trimming, when the remote
generate call succeeds the returned plan exists, sits at index 0 of the
collection, is the current plan, and the next mirror write stores exactly
the new collection, whose ids include the plan's id. -/
theorem c1_generate_success (prompt : String) (options : GenOptions)
    (data : GenResponse) (devMode : Bool) (now nowMs : String) (rnd : Nat)
    (store : StoreContent) (s : HookState) (h : jsTrim prompt ≠ []) :
    ∃ plan : FloorPlan,
      (generateFloorPlan prompt options (.ok data) devMode now nowMs rnd s).ret = some plan ∧
      (generateFloorPlan prompt options (.ok data) devMode now nowMs rnd s).state.floorPlans.head? = some plan ∧
      (generateFloorPlan prompt options (.ok data) devMode now nowMs rnd s).state.currentPlan = some plan ∧
      mirrorEffect (generateFloorPlan prompt options (.ok data) devMode now nowMs rnd s).state.floorPlans store =
        .plans (generateFloorPlan prompt options (.ok data) devMode now nowMs rnd s).state.floorPlans ∧
      plan.id ∈ ((generateFloorPlan prompt options (.ok data) devMode now nowMs rnd s).state.floorPlans).map FloorPlan.id := by
  unfold generateFloorPlan
  rw [if_neg h]
  refine ⟨_, rfl, rfl, rfl, ?_, ?_⟩
  · exact mirrorEffect_of_ne_nil store (by simp)
  · simp

/-- C1 witness: a concrete successful generation from the empty initial
state. -/
theorem c1_witness :
    jsTrim "a modern house" ≠ [] ∧
    ∃ plan : FloorPlan,
      (generateFloorPlan "a modern house" sampleOptions (.ok sampleResponse) false "t9" "n9" 7 initialState).ret = some plan ∧
      (generateFloorPlan "a modern house" sampleOptions (.ok sampleResponse) false "t9" "n9" 7 initialState).state.floorPlans.head? = some plan ∧
      (generateFloorPlan "a modern house" sampleOptions (.ok sampleResponse) false "t9" "n9" 7 initialState).state.currentPlan = some plan ∧
      mirrorEffect (generateFloorPlan "a modern house" sampleOptions (.ok sampleResponse) false "t9" "n9" 7 initialState).state.floorPlans .missing =
        .plans (generateFloorPlan "a modern house" sampleOptions (.ok sampleResponse) false "t9" "n9" 7 initialState).state.floorPlans ∧
      plan.id ∈ ((generateFloorPlan "a modern house" sampleOptions (.ok sampleResponse) false "t9" "n9" 7 initialState).state.floorPlans).map FloorPlan.id :=
  ⟨by decide,
    c1_generate_success "a modern house" sampleOptions sampleResponse false
      "t9" "n9" 7 .missing initialState (by decide)⟩

/-- C2: the claim says loading never lets an exception escape and
degrades to an empty collection on malformed cache content.  The code is
a slip: the `catch` block re-parses the same undecodable string and the
second parse error escapes `loadFloorPlans` (the missing-key path does
degrade gracefully, as the claim says). -/
theorem c2_malformed_cache_raises :
    (loadFloorPlans .fail .malformed initialState).raised = true ∧
    (loadFloorPlans .fail .malformed initialState).state.error = none ∧
    (loadFloorPlans (.ok .malformed) .malformed initialState).raised = true ∧
    (loadFloorPlans .fail .missing initialState).raised = false ∧
    (loadFloorPlans .fail .missing initialState).state.floorPlans = [] ∧
    (loadFloorPlans (.ok .malformed) .missing initialState).raised = false ∧
    (loadFloorPlans (.ok .malformed) .missing initialState).state.floorPlans = [] := by
  decide

/-- C3 counterexample: deleting the last remaining plan leaves the
in-memory collection empty, but the mirror effect skips empty
collections, so the store keeps the stale one-plan serialization instead
of converging. -/
theorem c3_counterexample :
    (deleteFloorPlan "plan-1" { initialState with floorPlans := [samplePlan] }).1.floorPlans = [] ∧
    mirrorEffect (deleteFloorPlan "plan-1" { initialState with floorPlans := [samplePlan] }).1.floorPlans
      (.plans [samplePlan]) = .plans [samplePlan] ∧
    StoreContent.plans [samplePlan] ≠ StoreContent.plans [] :=
  ⟨rfl, rfl, by decide⟩

/-- C3 (amended): after initialize's adoption, generate's prepend, save's
replace and delete's removal, the store holds exactly the current
in-memory collection whenever that collection is non-empty; a mutation
that empties the collection (delete of the last plan) leaves the store
unchanged, i.e. stale. -/
theorem c3_mirror_convergence (s : HookState) (store : StoreContent) (x : String)
    (plan : FloorPlan) (prompt : String) (options : GenOptions) (data : GenResponse)
    (devMode : Bool) (now nowMs : String) (rnd : Nat) (api : ApiResult LoadData) :
    ((deleteFloorPlan x s).1.floorPlans ≠ [] →
      mirrorEffect (deleteFloorPlan x s).1.floorPlans store =
        .plans (deleteFloorPlan x s).1.floorPlans) ∧
    ((deleteFloorPlan x s).1.floorPlans = [] →
      mirrorEffect (deleteFloorPlan x s).1.floorPlans store = store) ∧
    ((saveFloorPlan plan s).1.floorPlans ≠ [] →
      mirrorEffect (saveFloorPlan plan s).1.floorPlans store =
        .plans (saveFloorPlan plan s).1.floorPlans) ∧
    (jsTrim prompt ≠ [] →
      mirrorEffect (generateFloorPlan prompt options (.ok data) devMode now nowMs rnd s).state.floorPlans store =
        .plans (generateFloorPlan prompt options (.ok data) devMode now nowMs rnd s).state.floorPlans) ∧
    ((loadFloorPlans api store s).state.floorPlans ≠ [] →
      mirrorEffect (loadFloorPlans api store s).state.floorPlans store =
        .plans (loadFloorPlans api store s).state.floorPlans) := by
  refine ⟨fun h => mirrorEffect_of_ne_nil store h,
    fun h => by rw [h]; rfl,
    fun h => mirrorEffect_of_ne_nil store h,
    fun h => ?_,
    fun h => mirrorEffect_of_ne_nil store h⟩
  unfold generateFloorPlan
  rw [if_neg h]
  exact mirrorEffect_of_ne_nil store (by simp)

/-- C3 witness: deleting one of two plans leaves a non-empty collection
and the store converges to it. -/
theorem c3_witness :
    (deleteFloorPlan "plan-1" { initialState with floorPlans := [samplePlan, samplePlan2] }).1.floorPlans ≠ [] ∧
    mirrorEffect (deleteFloorPlan "plan-1" { initialState with floorPlans := [samplePlan, samplePlan2] }).1.floorPlans .missing =
      .plans (deleteFloorPlan "plan-1" { initialState with floorPlans := [samplePlan, samplePlan2] }).1.floorPlans :=
  ⟨by decide,
    (c3_mirror_convergence { initialState with floorPlans := [samplePlan, samplePlan2] }
      .missing "plan-1" samplePlan "p" sampleOptions sampleResponse false "" "" 0 .fail).1
      (by decide)⟩

/-- C4 counterexample: deleting an id that matches no plan is a no-op on
the collection but the call still resolves with `true` (the source
returns `true` unconditionally; its `return false` sits in an unreachable
`catch`), contradicting the claim that it returns `false`. -/
theorem c4_counterexample :
    initialState.floorPlans = [] ∧
    (deleteFloorPlan "plan-1" initialState).2 = true ∧
    (deleteFloorPlan "plan-1" initialState).1.floorPlans = [] := by
  decide

/-- C4 (amended): `delete(id)` removes exactly the entries whose id
equals the argument, clears `currentPlan` exactly when its id matches,
and leaves the collection unchanged when no plan has that id — but it
returns `true` in every case, including the no-op one. -/
theorem c4_delete_amended (x : String) (s : HookState) :
    (deleteFloorPlan x s).1.floorPlans = s.floorPlans.filter (fun p => p.id != x) ∧
    (deleteFloorPlan x s).1.currentPlan =
      (if currentIdIs s.currentPlan x then none else s.currentPlan) ∧
    (deleteFloorPlan x s).2 = true ∧
    ((∀ p ∈ s.floorPlans, p.id ≠ x) →
      (deleteFloorPlan x s).1.floorPlans = s.floorPlans) := by
  refine ⟨?_, ?_, ?_, ?_⟩
  · unfold deleteFloorPlan
    dsimp only
    split <;> rfl
  · unfold deleteFloorPlan
    dsimp only
    split <;> rfl
  · unfold deleteFloorPlan
    dsimp only
  · intro h
    unfold deleteFloorPlan
    dsimp only
    have hf : s.floorPlans.filter (fun p => p.id != x) = s.floorPlans :=
      List.filter_eq_self.mpr fun p hp => bne_iff_ne.mpr (h p hp)
    split <;> simp [hf]

/-- C4 witness: deleting a non-existent id from a one-plan collection
leaves the collection as it was (and still returns `true`). -/
theorem c4_witness :
    (∀ p ∈ ({ initialState with floorPlans := [samplePlan] } : HookState).floorPlans, p.id ≠ "zzz") ∧
    (deleteFloorPlan "zzz" { initialState with floorPlans := [samplePlan] }).1.floorPlans =
      ({ initialState with floorPlans := [samplePlan] } : HookState).floorPlans :=
  ⟨by decide,
    (c4_delete_amended "zzz" { initialState with floorPlans := [samplePlan] }).2.2.2
      (by decide)⟩

/-- C5 counterexample: an empty JS array is truthy, so a well-formed but
empty plan list passes the `data && data.floorPlans && Array.isArray`
check and is adopted; the durable store is NOT consulted, contradicting
the claimed fallback on empty responses. -/
theorem c5_counterexample :
    (loadFloorPlans (.ok (.wellFormed [])) (.plans [samplePlan]) initialState).state.floorPlans = [] ∧
    (loadFloorPlans (.ok (.wellFormed [])) (.plans [samplePlan]) initialState).raised = false ∧
    [samplePlan] ≠ ([] : List FloorPlan) := by
  decide

/-- C5 (amended): a well-formed plan list — empty or not — is adopted as
the collection; only a transport failure or a malformed response falls
back to the durable store; when the store key is missing the collection
starts empty. -/
theorem c5_load_amended (ps fs : List FloorPlan) (s : HookState) (store : StoreContent) :
    (loadFloorPlans (.ok (.wellFormed ps)) store s).state.floorPlans = ps ∧
    (loadFloorPlans .fail (.plans fs) s).state.floorPlans = fs ∧
    (loadFloorPlans (.ok .malformed) (.plans fs) s).state.floorPlans = fs ∧
    (loadFloorPlans .fail .missing initialState).state.floorPlans = [] ∧
    (loadFloorPlans (.ok .malformed) .missing initialState).state.floorPlans = [] := by
  cases store <;> exact ⟨rfl, rfl, rfl, rfl, rfl⟩

/-- C6: a prompt that is empty after trimming sets the validation
advisory error, resolves with `null`, performs no remote call, and leaves
the collection, the current plan and the generating flag untouched. -/
theorem c6_blank_prompt (prompt : String) (options : GenOptions)
    (api : ApiResult GenResponse) (devMode : Bool) (now nowMs : String)
    (rnd : Nat) (s : HookState) (h : jsTrim prompt = []) :
    (generateFloorPlan prompt options api devMode now nowMs rnd s).state.error =
      some "Please enter a description for your floor plan" ∧
    (generateFloorPlan prompt options api devMode now nowMs rnd s).ret = none ∧
    (generateFloorPlan prompt options api devMode now nowMs rnd s).apiCalled = false ∧
    (generateFloorPlan prompt options api devMode now nowMs rnd s).state.floorPlans = s.floorPlans ∧
    (generateFloorPlan prompt options api devMode now nowMs rnd s).state.currentPlan = s.currentPlan ∧
    (generateFloorPlan prompt options api devMode now nowMs rnd s).state.isGenerating = s.isGenerating := by
  unfold generateFloorPlan
  rw [if_pos h]
  exact ⟨rfl, rfl, rfl, rfl, rfl, rfl⟩

/-- C6 witness: the all-whitespace prompt, with a server that would
succeed, still takes the validation path. -/
theorem c6_witness :
    jsTrim "   " = [] ∧
    (generateFloorPlan "   " sampleOptions (.ok sampleResponse) false "t" "n" 0 initialState).ret = none ∧
    (generateFloorPlan "   " sampleOptions (.ok sampleResponse) false "t" "n" 0 initialState).apiCalled = false :=
  ⟨by decide,
    (c6_blank_prompt "   " sampleOptions (.ok sampleResponse) false "t" "n" 0 initialState (by decide)).2.1,
    (c6_blank_prompt "   " sampleOptions (.ok sampleResponse) false "t" "n" 0 initialState (by decide)).2.2.1⟩

/-- C9: once the remote generate call is made (prompt non-blank), every
outcome — success, failure without dev mode, failure with the dev-mode
placeholder — ends with the generating flag cleared. -/
theorem c9_generating_cleared (prompt : String) (options : GenOptions)
    (api : ApiResult GenResponse) (devMode : Bool) (now nowMs : String)
    (rnd : Nat) (s : HookState) (h : jsTrim prompt ≠ []) :
    (generateFloorPlan prompt options api devMode now nowMs rnd s).state.isGenerating = false := by
  unfold generateFloorPlan
  rw [if_neg h]
  cases api with
  | ok data => rfl
  | fail => cases devMode <;> rfl

/-- C9 witness: the dev-mode placeholder path on a failed call also
clears the flag. -/
theorem c9_witness :
    jsTrim "a studio flat" ≠ [] ∧
    (generateFloorPlan "a studio flat" sampleOptions .fail true "t" "n" 0 initialState).state.isGenerating = false :=
  ⟨by decide,
    c9_generating_cleared "a studio flat" sampleOptions .fail true "t" "n" 0 initialState (by decide)⟩

/-- C10: every operation overwrites the advisory error at its start, so
its entire result is independent of any error left by a previous
operation; and a successful operation (well-formed load, successful
generate on a non-blank prompt, save, delete) ends with the error null. -/
theorem c10_error_reset (e : Option String) (s : HookState) (prompt : String)
    (options : GenOptions) (api : ApiResult GenResponse) (lapi : ApiResult LoadData)
    (store : StoreContent) (devMode : Bool) (now nowMs : String) (rnd : Nat)
    (x : String) (plan : FloorPlan) (data : GenResponse) (ps : List FloorPlan) :
    loadFloorPlans lapi store { s with error := e } = loadFloorPlans lapi store s ∧
    generateFloorPlan prompt options api devMode now nowMs rnd { s with error := e } =
      generateFloorPlan prompt options api devMode now nowMs rnd s ∧
    saveFloorPlan plan { s with error := e } = saveFloorPlan plan s ∧
    deleteFloorPlan x { s with error := e } = deleteFloorPlan x s ∧
    (loadFloorPlans (.ok (.wellFormed ps)) store s).state.error = none ∧
    (generateFloorPlan prompt options (.ok data) devMode now nowMs rnd s).state.error =
      (if jsTrim prompt = [] then some "Please enter a description for your floor plan" else none) ∧
    (saveFloorPlan plan s).1.error = none ∧
    (deleteFloorPlan x s).1.error = none := by
  refine ⟨?_, ?_, ?_, ?_, rfl, ?_, ?_, ?_⟩
  · cases lapi with
    | ok d => cases d <;> cases store <;> rfl
    | fail => cases store <;> rfl
  · unfold generateFloorPlan
    split
    · rfl
    · cases api with
      | ok data => rfl
      | fail => cases devMode <;> rfl
  · unfold saveFloorPlan
    dsimp only
  · unfold deleteFloorPlan
    dsimp only
  · unfold generateFloorPlan
    split
    · rfl
    · rfl
  · unfold saveFloorPlan
    dsimp only
    split <;> rfl
  · unfold deleteFloorPlan
    dsimp only
    split <;> rfl

end FloorForge
